import Mathlib

/-!
Shallow embedding of the Coup auto-reply core: the `AutoReplyHandler` class
(cooldown store, in-flight guard, message classifier, dispatch) and the
`AutoReplyRealtimeService` background loops (presence cycler, health monitor),
translated from the repository's JavaScript sources.  Times are milliseconds
as `Int`, `Math.random()` draws are rationals in `[0, 1)`, and JS `Map`/`Set`
state is explicit association-list state threaded through the handler.
-/

set_option maxHeartbeats 1000000

namespace Coup

/-- A JavaScript numeric identifier: either a plain `number` or a `BigInt`.
The source normalizes both to a number before comparing
(`typeof x === 'bigint' ? Number(x) : x`). -/
inductive JSNum where
  | num (n : Int)
  | big (n : Int)
  deriving DecidableEq, Repr

/-- Canonical numeric value of an id, as produced by the source's
`typeof x === 'bigint' ? Number(x) : x` normalization. -/
def JSNum.toNum : JSNum → Int
  | .num n => n
  | .big n => n

/-- A peer reference (`message.fromId` / `message.senderId` shape):
a `className` tag and an optional `userId`. -/
structure Peer where
  className : String
  userId : Option JSNum
  deriving DecidableEq, Repr

/-- A resolved sender entity; the handler only reads its `bot` flag. -/
structure Sender where
  bot : Bool
  deriving DecidableEq, Repr

/-- A message entity (`message.entities[i]`): `className` and optional `userId`. -/
structure Entity where
  className : String
  userId : Option JSNum
  deriving DecidableEq, Repr

/-- The sender-identifying fields of a message (`senderId` and `fromId`);
`isMessageFromSelf` reads only these, both on the inbound message and on a
replied-to message. -/
structure MsgCore where
  senderId : Option Peer
  fromId : Option Peer
  deriving DecidableEq, Repr

/-- An inbound message as read by `handleIncomingMessage`.
`replyTo` models truthiness of `message.replyTo`; `getReplyMessage` is the
result of `message.getReplyMessage()` when it succeeds (`none` = it throws). -/
structure Message where
  out : Bool
  id : Option Nat
  text : Option String
  core : MsgCore
  sender : Option Sender
  entities : Option (List Entity)
  replyTo : Bool
  replyToMsgId : Option Nat
  getReplyMessage : Option MsgCore

/-- A chat as read by the handler: `className`, `id`, and the
megagroup/gigagroup flags used for group detection. -/
structure Chat where
  className : String
  id : Option JSNum
  megagroup : Bool
  gigagroup : Bool
  deriving DecidableEq, Repr

/-- Per-account auto-reply settings (`configService.getAccountSettings`).
Message texts are `Option String`; JS truthiness makes `none` and `""` both
count as unset. -/
structure Settings where
  autoReplyDmEnabled : Bool
  autoReplyDmMessage : Option String
  autoReplyGroupsEnabled : Bool
  autoReplyGroupsMessage : Option String
  deriving DecidableEq, Repr

/-- The transport client as seen by the handler: own identity (`getMe`),
entity resolution (`none` = the call throws), fetching a replied-to message
by id (`none` = throw or empty result), and whether `sendMessage` succeeds. -/
structure Client where
  meId : JSNum
  meUsername : Option String
  getEntity : Int → Option Sender
  fetchReply : Option MsgCore
  sendOk : Bool

/-- A `NewMessage` event (`event.message`). -/
structure Event where
  message : Option Message

/-- JS truthiness of an optional string: present and non-empty. -/
def truthyStr : Option String → Bool
  | some s => s ≠ ""
  | none => false

/-- JS whitespace for `String.prototype.trim`. -/
def jsIsSpace (c : Char) : Bool :=
  c = ' ' || c = '\t' || c = '\n' || c = '\r' || c = '\x0b' || c = '\x0c'

/-- `String.prototype.trim`: strip leading and trailing whitespace. -/
def jsTrim (s : String) : String :=
  ⟨((s.data.dropWhile jsIsSpace).reverse.dropWhile jsIsSpace).reverse⟩

/-- `String.prototype.toLowerCase` (ASCII case fold, enough for the
handler's username comparisons). -/
def jsToLower (c : Char) : Char :=
  if 'A' ≤ c ∧ c ≤ 'Z' then Char.ofNat (c.toNat + 32) else c

/-- `!message.text || message.text.trim().length === 0`. -/
def textIsEmpty : Option String → Bool
  | some s => jsTrim s = ""
  | none => true

/-- Extract the sender id from a peer object, per the repeated source idiom:
`className === 'PeerUser'` reads `userId` directly, otherwise `userId` is
used only when truthy (so a zero id is dropped on the fallback branch). -/
def peerUserId (p : Peer) : Option JSNum :=
  if p.className = "PeerUser" then p.userId
  else match p.userId with
    | some u => if u.toNum = 0 then none else some u
    | none => none

/-- `isMessageFromSelf(message, meId)`: the `senderId` path returns `true`
only on a match and otherwise falls through to the `fromId` path, where the
extracted id is compared after numeric normalization.  (Modelled peers are
plain records, so the dynamic `fromId.equals` method branch of the source is
the structural comparison below.) -/
def isMessageFromSelf (msg : MsgCore) (meId : JSNum) : Bool :=
  let viaSenderId : Bool :=
    match msg.senderId.bind peerUserId with
    | some sid => sid.toNum = meId.toNum
    | none => false
  if viaSenderId then true
  else match msg.fromId with
    | none => false
    | some f =>
      match peerUserId f with
      | some sid => sid.toNum = meId.toNum
      | none => false

/-- `isSenderBot(message, client)`: a present `message.sender` answers
directly; otherwise the `fromId` then `senderId` peers are resolved via
`getEntity` (a resolution failure returns `false` immediately, a resolved
non-bot falls through), defaulting to `false`. -/
def isSenderBot (msg : Message) (cl : Client) : Bool :=
  match msg.sender with
  | some s => s.bot
  | none =>
    let fromIdOutcome : Option Bool :=
      match msg.core.fromId.bind peerUserId with
      | some sid =>
        match cl.getEntity sid.toNum with
        | some ent => if ent.bot then some true else none
        | none => some false
      | none => none
    match fromIdOutcome with
    | some b => b
    | none =>
      match msg.core.senderId.bind peerUserId with
      | some sid =>
        match cl.getEntity sid.toNum with
        | some ent => ent.bot
        | none => false
      | none => false

/-- One iteration of the entity loop in `isAccountMentioned`: mention-like
entities whose `userId` matches the normalized own id. -/
def entityMentionsMe (meId : JSNum) (e : Entity) : Bool :=
  if e.className = "MessageEntityMentionName" ∨ e.className = "MessageEntityMention"
      ∨ e.userId.isSome then
    match e.userId with
    | some u => u.toNum = meId.toNum
    | none => false
  else false

/-- Word character for the regex word-boundary `\b`. -/
def isWordChar (c : Char) : Bool := c.isAlphanum || c = '_'

/-- Does `pat` occur at the head of `s`, followed by a word boundary?
This is the semantics of matching `pat` then `\b` at one position. -/
def boundaryMatch : List Char → List Char → Bool
  | [], [] => true
  | [], c :: _ => !isWordChar c
  | p :: ps, c :: cs => p = c && boundaryMatch ps cs
  | _ :: _, [] => false

/-- The test of `new RegExp('@' + meUsername + '\\b', 'i')` against the text:
a case-insensitive occurrence of `@username` followed by a word boundary. -/
def textMentions (text username : String) : Bool :=
  let t := text.data.map jsToLower
  let pat := '@' :: username.data.map jsToLower
  (List.range (t.length + 1)).any fun i => boundaryMatch pat (t.drop i)

/-- `isAccountMentioned(message, meId, meUsername)`: structured mention
entities first, then the literal `@username` regex on the text (both text and
username must be truthy). -/
def isAccountMentioned (msg : Message) (meId : JSNum) (meUsername : Option String) : Bool :=
  let viaEntities : Bool :=
    match msg.entities with
    | some es => es.any (entityMentionsMe meId)
    | none => false
  if viaEntities then true
  else match msg.text, meUsername with
    | some t, some u =>
      if t = "" ∨ u = "" then false else textMentions t u
    | _, _ => false

/-- `isReplyToAccount(message, client, accountId)`: requires a reply header;
resolves the replied-to message via `getReplyMessage`, falling back to a
fetch by `replyToMsgId` (failures yield `false`), and finally checks the
resolved message with `isMessageFromSelf` against the own id. -/
def isReplyToAccount (msg : Message) (cl : Client) : Bool :=
  if !msg.replyTo && msg.replyToMsgId.isNone then false
  else
    let repliedTo : Option MsgCore :=
      if msg.replyTo then
        match msg.getReplyMessage with
        | some m => some m
        | none =>
          match msg.replyToMsgId with
          | some _ => cl.fetchReply
          | none => none
      else cl.fetchReply
    match repliedTo with
    | some m => isMessageFromSelf m cl.meId
    | none => false

/-! ## Cooldown store and in-flight guard (`AutoReplyHandler` state) -/

/-- The handler's mutable state: `repliedChats` (chat key ↦ `lastReplyTime`),
`processingMessages` (message keys in flight), and the pending `setTimeout`
cleanups scheduled by `markMessageProcessing` (key, fire time). -/
structure HandlerState where
  repliedChats : List (String × Int)
  processingMessages : List String
  cleanupTimers : List (String × Int)
  deriving DecidableEq, Repr

/-- The empty initial state of a fresh `AutoReplyHandler`. -/
def emptyState : HandlerState := ⟨[], [], []⟩

/-- `getChatKey(accountId, chatId)`. -/
def getChatKey (accountId : Nat) (chatId : String) : String :=
  toString accountId ++ "_" ++ chatId

/-- `getMessageKey(accountId, chatId, messageId)`. -/
def getMessageKey (accountId : Nat) (chatId messageId : String) : String :=
  toString accountId ++ "_" ++ chatId ++ "_" ++ messageId

/-- `Map.get` on the association-list model. -/
def lookupKey (m : List (String × Int)) (k : String) : Option Int :=
  (m.find? fun p => p.1 = k).map (·.2)

/-- `Map.delete` on the association-list model. -/
def eraseKey (m : List (String × Int)) (k : String) : List (String × Int) :=
  m.filter fun p => p.1 ≠ k

/-- `Map.set` on the association-list model. -/
def setKey (m : List (String × Int)) (k : String) (v : Int) : List (String × Int) :=
  (k, v) :: eraseKey m k

/-- `hasRepliedToChatRecently(accountId, chatId)`: absent entry is `false`;
an entry with `lastReplyTime < now - 30*60*1000` is expired, deleted, and
reported `false`; otherwise `true`.  Returns the answer and the possibly
purged state. -/
def hasRepliedToChatRecently (st : HandlerState) (accountId : Nat) (chatId : String)
    (now : Int) : Bool × HandlerState :=
  match lookupKey st.repliedChats (getChatKey accountId chatId) with
  | none => (false, st)
  | some lastReplyTime =>
    if lastReplyTime < now - 30 * 60 * 1000 then
      (false, { st with
        repliedChats := eraseKey st.repliedChats (getChatKey accountId chatId) })
    else (true, st)

/-- `markChatAsReplied(accountId, chatId)`: record `lastReplyTime := Date.now()`. -/
def markChatAsReplied (st : HandlerState) (accountId : Nat) (chatId : String)
    (now : Int) : HandlerState :=
  { st with repliedChats := setKey st.repliedChats (getChatKey accountId chatId) now }

/-- `isProcessingMessage(accountId, chatId, messageId)`. -/
def isProcessingMessage (st : HandlerState) (accountId : Nat) (chatId messageId : String) : Bool :=
  st.processingMessages.contains (getMessageKey accountId chatId messageId)

/-- `markMessageProcessing(accountId, chatId, messageId)`: add the key to the
in-flight set and schedule its `setTimeout` auto-cleanup 30000 ms ahead. -/
def markMessageProcessing (st : HandlerState) (accountId : Nat) (chatId messageId : String)
    (now : Int) : HandlerState :=
  { st with
    processingMessages :=
      if st.processingMessages.contains (getMessageKey accountId chatId messageId) then
        st.processingMessages
      else getMessageKey accountId chatId messageId :: st.processingMessages
    cleanupTimers :=
      (getMessageKey accountId chatId messageId, now + 30000) :: st.cleanupTimers }

/-- `clearMessageProcessing(accountId, chatId, messageId)`. -/
def clearMessageProcessing (st : HandlerState) (accountId : Nat)
    (chatId messageId : String) : HandlerState :=
  { st with
    processingMessages :=
      st.processingMessages.filter fun k => k ≠ getMessageKey accountId chatId messageId }

/-- Event-loop semantics of the scheduled cleanups: at time `now`, every due
`setTimeout` callback fires, deleting its key from the in-flight set. -/
def fireDueTimers (st : HandlerState) (now : Int) : HandlerState :=
  { st with
    processingMessages :=
      st.processingMessages.filter fun k =>
        !(st.cleanupTimers.any fun t => t.1 = k && decide (t.2 ≤ now))
    cleanupTimers := st.cleanupTimers.filter fun t => !(decide (t.2 ≤ now)) }

/-! ## The dispatch path (`handleIncomingMessage`) -/

/-- One `client.sendMessage(chat, options)` call: target chat id, text, and
the `options.replyTo` reference when present. -/
structure SendCall where
  chatId : String
  text : String
  replyToRef : Option Nat
  deriving DecidableEq, Repr

/-- Where `handleIncomingMessage` returned, mirroring its early returns and
the terminal branches of the DM and group paths. -/
inductive HandlerOutcome where
  | noMessage
  | skippedOutgoing
  | skippedSelf
  | skippedBot
  | skippedEmpty
  | noChat
  | noChatId
  | noMessageId
  | alreadyProcessing
  | noSettings
  | dmCooldownActive
  | dmReplied
  | dmSendFailed
  | groupNoTrigger
  | groupReplied
  | groupSendFailed
  | unhandledChat
  deriving DecidableEq, Repr

/-- `String(chat.id)` after the null check (BigInt and number both print
their decimal value). -/
def chatIdString (chat : Chat) : Option String :=
  chat.id.map fun j => toString j.toNum

/-- The DM terminal block of `handleIncomingMessage` (cooldown check, mark
in flight, send, record cooldown on success, release in `finally`).
`hasRepliedToChatRecently` is pure here, so its single source invocation may
be referenced repeatedly. -/
def dmPath (st : HandlerState) (accountId : Nat) (chatId messageId : String)
    (dmText : String) (sendOk : Bool) (now : Int) :
    HandlerState × HandlerOutcome × List SendCall :=
  if (hasRepliedToChatRecently st accountId chatId now).1 then
    ((hasRepliedToChatRecently st accountId chatId now).2, .dmCooldownActive, [])
  else if sendOk then
    (clearMessageProcessing
        (markChatAsReplied
          (markMessageProcessing (hasRepliedToChatRecently st accountId chatId now).2
            accountId chatId messageId now)
          accountId chatId now)
        accountId chatId messageId,
      .dmReplied, [⟨chatId, dmText, none⟩])
  else
    (clearMessageProcessing
        (markMessageProcessing (hasRepliedToChatRecently st accountId chatId now).2
          accountId chatId messageId now)
        accountId chatId messageId,
      .dmSendFailed, [])

/-- The group terminal block of `handleIncomingMessage` (trigger gate — no
cooldown — mark in flight, send, release in `finally`); `trigger` is
`isMentioned || isReplyToAccount`, so the gate `!trigger` is the source's
`!isMentioned && !isReplyToAccount`. -/
def groupPath (st : HandlerState) (accountId : Nat) (chatId messageId : String)
    (groupsText : String) (sendOk trigger : Bool) (now : Int) :
    HandlerState × HandlerOutcome × List SendCall :=
  if !trigger then (st, .groupNoTrigger, [])
  else if sendOk then
    (clearMessageProcessing (markMessageProcessing st accountId chatId messageId now)
        accountId chatId messageId,
      .groupReplied, [⟨chatId, groupsText, none⟩])
  else
    (clearMessageProcessing (markMessageProcessing st accountId chatId messageId now)
        accountId chatId messageId,
      .groupSendFailed, [])

/-- `handleIncomingMessage(event, accountId, client)`, with the transport
answers (`getChat`, `getAccountSettings`) and the clock passed explicitly.
Returns the updated handler state, the exit taken, and the successful
`sendMessage` calls. -/
def handleIncomingMessage (ev : Event) (accountId : Nat) (cl : Client)
    (settings : Option Settings) (chat : Option Chat) (now : Int)
    (st : HandlerState) : HandlerState × HandlerOutcome × List SendCall :=
  match ev.message with
  | none => (st, .noMessage, [])
  | some message =>
    if message.out then (st, .skippedOutgoing, [])
    else if isMessageFromSelf message.core cl.meId then (st, .skippedSelf, [])
    else if isSenderBot message cl then (st, .skippedBot, [])
    else if textIsEmpty message.text then (st, .skippedEmpty, [])
    else match chat with
    | none => (st, .noChat, [])
    | some chat =>
      match chatIdString chat with
      | none => (st, .noChatId, [])
      | some chatId =>
        match message.id with
        | none => (st, .noMessageId, [])
        | some mid =>
          if mid = 0 then (st, .noMessageId, [])
          else if isProcessingMessage st accountId chatId (toString mid) then
            (st, .alreadyProcessing, [])
          else match settings with
          | none => (st, .noSettings, [])
          | some settings =>
            if decide (chat.className = "User") && settings.autoReplyDmEnabled
                && truthyStr settings.autoReplyDmMessage then
              dmPath st accountId chatId (toString mid)
                (settings.autoReplyDmMessage.getD "") cl.sendOk now
            else if decide (chat.className = "Chat" ∨ chat.className = "Channel"
                  ∨ chat.megagroup = true ∨ chat.gigagroup = true)
                && settings.autoReplyGroupsEnabled
                && truthyStr settings.autoReplyGroupsMessage then
              groupPath st accountId chatId (toString mid)
                (settings.autoReplyGroupsMessage.getD "") cl.sendOk
                (isAccountMentioned message cl.meId cl.meUsername
                  || isReplyToAccount message cl)
                now
            else (st, .unhandledChat, [])

/-! ## Background loops (`AutoReplyRealtimeService`, event-driven variant) -/

def OFFLINE_INTERVAL_MIN : Int := 8000
def OFFLINE_INTERVAL_MAX : Int := 12000
def HEALTH_CHECK_INTERVAL : Int := 120000

/-- `getRandomOfflineInterval()`:
`Math.floor(Math.random() * (MAX - MIN + 1)) + MIN`, with the `Math.random()`
draw `r ∈ [0, 1)` made explicit. -/
def getRandomOfflineInterval (r : ℚ) : Int :=
  ⌊r * ((OFFLINE_INTERVAL_MAX : ℚ) - (OFFLINE_INTERVAL_MIN : ℚ) + 1)⌋ + OFFLINE_INTERVAL_MIN

/-- How a background loop is driven: a `setInterval` fixed-period timer, or a
self-rescheduling `setTimeout` chain. -/
inductive ScheduleKind where
  | fixedInterval (period : Int)
  | chainedTimeout
  deriving DecidableEq, Repr

/-- A started background loop: its driving schedule and whether its body is
also invoked directly (synchronously) when the loop is started. -/
structure LoopSchedule where
  kind : ScheduleKind
  runsImmediately : Bool
  deriving DecidableEq, Repr

/-- `startHealthCheckLoop()`: `setInterval(performHealthCheck,
HEALTH_CHECK_INTERVAL)`; the body is not called before the first tick. -/
def startHealthCheckLoop : LoopSchedule :=
  { kind := .fixedInterval HEALTH_CHECK_INTERVAL, runsImmediately := false }

/-- `startOfflineStatusLoop()`: `scheduleNext` chains `setTimeout` calls, each
with a fresh `getRandomOfflineInterval()` delay. -/
def startOfflineStatusLoop : LoopSchedule :=
  { kind := .chainedTimeout, runsImmediately := false }

/-- `setInterval` semantics: the `n`-th callback run (0-based) fires `period *
(n+1)` ms after registration. -/
def setIntervalFireTime (period : Int) (n : Nat) : Int := period * ((n : Int) + 1)

/-- Fire time of the `n`-th periodic health check after `start()`. -/
def healthCheckFireTime (n : Nat) : Int :=
  match startHealthCheckLoop.kind with
  | .fixedInterval period => setIntervalFireTime period n
  | .chainedTimeout => 0

/-- The delay the offline-status chain schedules before its `n`-th walk: a
fresh `getRandomOfflineInterval` draw every time (`rs` is the stream of
`Math.random()` values). -/
def offlineLoopDelays (rs : ℕ → ℚ) (n : ℕ) : Int :=
  getRandomOfflineInterval (rs n)

/-- A registered account as seen by the offline-status walk: its key in
`connectedAccounts`, whether its client reports connected, and whether
processing it raises an error. -/
structure LoopAccount where
  idStr : String
  connected : Bool
  throwsErr : Bool
  deriving DecidableEq, Repr

/-- What the walk did for one account. -/
inductive WalkAction where
  | offlineCall (idStr : String)
  | reconnect (idStr : String)
  | errorLogged (idStr : String)
  deriving DecidableEq, Repr

/-- The per-account body of the offline-status walk: `try { connected ?
setOfflineStatus : connectAccount } catch { log and continue }`. -/
def walkAccount (a : LoopAccount) : WalkAction :=
  if a.throwsErr then .errorLogged a.idStr
  else if a.connected then .offlineCall a.idStr
  else .reconnect a.idStr

/-- One walk of `startOfflineStatusLoop`'s timer body over
`connectedAccounts`: every account is visited, each inside its own
try/catch. -/
def offlineWalk (accounts : List LoopAccount) : List WalkAction :=
  accounts.map walkAccount

/-- Operations performed by `start()` (in order): connect each account row,
then start the offline-status chain (first `setTimeout` scheduled), then
register the health-check `setInterval`. -/
inductive Op where
  | connectAccount (accountId : Nat)
  | performHealthCheck
  | scheduleTimeout (delay : Int)
  | registerInterval (period : Int)
  deriving DecidableEq, Repr

/-- The trace of `start()`: the account connections, the initial
`scheduleNext` of the offline chain, and the health-check `setInterval`
registration.  No direct `performHealthCheck` call occurs. -/
def startOps (accountRows : List Nat) (r0 : ℚ) : List Op :=
  accountRows.map Op.connectAccount
    ++ [Op.scheduleTimeout (getRandomOfflineInterval r0),
        Op.registerInterval HEALTH_CHECK_INTERVAL]

/-! ## Polling-variant dispatch (`sendReplyWithDelay` and its call sites) -/

/-- `sendReplyWithDelay(client, chat, replyMessage, originalMessage, ...)`:
after the delay, build `options = { message }`, add `options.replyTo =
originalMessage` when one was passed, and send.  Returns the successful send
calls (empty when the send throws). -/
def sendReplyWithDelay (sendOk : Bool) (chatId : String) (replyMessage : String)
    (originalMessage : Option Nat) : List SendCall :=
  if sendOk then [⟨chatId, replyMessage, originalMessage⟩] else []

/-- The DM call site in `pollAccount`:
`sendReplyWithDelay(client, chat, settings.autoReplyDmMessage, null, ...)`. -/
def pollDmDispatch (sendOk : Bool) (chatId : String) (dmMessage : String) : List SendCall :=
  sendReplyWithDelay sendOk chatId dmMessage none

/-- The group call site in `pollAccount`:
`sendReplyWithDelay(client, chat, settings.autoReplyGroupsMessage,
lastMessage, ...)`. -/
def pollGroupDispatch (sendOk : Bool) (chatId : String) (groupsMessage : String)
    (lastMessageId : Nat) : List SendCall :=
  sendReplyWithDelay sendOk chatId groupsMessage (some lastMessageId)

/-! ## Interleaving of two handler tasks on the group path

`handleIncomingMessage` suspends at every `await`.  Between the in-flight
check (`isProcessingMessage`) and the group-path `markMessageProcessing`
sit the awaited `getAccountSettings`, `isAccountMentioned` and
`isReplyToAccount` calls, so a second task handling the same event can run
its own check before the first task sets the marker.  The two phases below
split the group path of `handleIncomingMessage` at that suspension point. -/

/-- Group path, phase 1: the part of the task up to the in-flight check,
which reads but never writes the state; the task then suspends awaiting the
settings fetch. -/
def groupCheckPhase (st : HandlerState) (accountId : Nat) (chatId messageId : String) : Bool :=
  !(isProcessingMessage st accountId chatId messageId)

/-- Two tasks A and B handling duplicate events for one message key, in the
schedule: A's check, B's check (while A awaits the settings fetch), A's
resumption (`groupPath`) to completion, B's resumption to completion.
Returns the final state and all dispatched sends. -/
def groupDuplicateRace (st0 : HandlerState) (accountId : Nat) (chatId messageId : String)
    (now : Int) (sendOk trigger : Bool) (groupsText : String) : HandlerState × List SendCall :=
  let aPassed := groupCheckPhase st0 accountId chatId messageId
  let bPassed := groupCheckPhase st0 accountId chatId messageId
  let aRun :=
    if aPassed then
      let r := groupPath st0 accountId chatId messageId groupsText sendOk trigger now
      (r.1, r.2.2)
    else (st0, [])
  let bRun :=
    if bPassed then
      let r := groupPath aRun.1 accountId chatId messageId groupsText sendOk trigger now
      (r.1, r.2.2)
    else (aRun.1, [])
  (bRun.1, aRun.2 ++ bRun.2)

/-! ## Concrete fixtures for witnesses and counterexamples -/

/-- A stranger peer (user id 111, distinct from the own id 999). -/
def strangerPeer : Peer := ⟨"PeerUser", some (.num 111)⟩

/-- Own identity used by the fixtures. -/
def meNum : JSNum := .num 999

/-- Sender fields of a message from the stranger. -/
def strangerCore : MsgCore := ⟨some strangerPeer, some strangerPeer⟩

/-- Sender fields of a message authored by the session's own identity,
carried as a `BigInt` to exercise the numeric normalization. -/
def selfCore : MsgCore := ⟨some ⟨"PeerUser", some (.big 999)⟩, none⟩

/-- A plain inbound direct message "hi" from the stranger. -/
def mkDmMessage (mid : Nat) : Message :=
  { out := false, id := some mid, text := some "hi", core := strangerCore,
    sender := some ⟨false⟩, entities := none, replyTo := false,
    replyToMsgId := none, getReplyMessage := none }

/-- A group message from the stranger carrying a structured mention of the
own identity. -/
def mkMentionMessage (mid : Nat) : Message :=
  { mkDmMessage mid with
    entities := some [⟨"MessageEntityMentionName", some (.big 999)⟩] }

/-- A group message from the stranger that is a reply to a message the
session authored (the replied-to message is inlined). -/
def mkReplySelfMessage (mid : Nat) : Message :=
  { mkDmMessage mid with replyTo := true, getReplyMessage := some selfCore }

/-- A one-to-one chat. -/
def mkUserChat (cid : Int) : Chat := ⟨"User", some (.num cid), false, false⟩

/-- A basic group chat with id 42. -/
def groupChat : Chat := ⟨"Chat", some (.num 42), false, false⟩

/-- DM auto-reply enabled with text "Away right now". -/
def dmSettings : Settings := ⟨true, some "Away right now", false, none⟩

/-- Group auto-reply enabled with text "Thanks for the ping". -/
def groupSettings : Settings := ⟨false, none, true, some "Thanks for the ping"⟩

/-- A client whose sends succeed; entity lookups throw (treated as
non-bot by `isSenderBot`). -/
def okClient : Client :=
  { meId := meNum, meUsername := some "couper", getEntity := fun _ => none,
    fetchReply := none, sendOk := true }

/-- A client whose `sendMessage` throws. -/
def failClient : Client := { okClient with sendOk := false }

example :
    handleIncomingMessage ⟨some (mkDmMessage 7)⟩ 1 okClient (some dmSettings)
      (some (mkUserChat 555)) 0 emptyState
    = (⟨[("1_555", 0)], [], [("1_555_7", 30000)]⟩, .dmReplied,
        [⟨"555", "Away right now", none⟩]) := by decide

example :
    (handleIncomingMessage ⟨some (mkDmMessage 8)⟩ 1 okClient (some dmSettings)
      (some (mkUserChat 555)) 1800000 ⟨[("1_555", 0)], [], []⟩).2.1
    = .dmCooldownActive := by decide

example :
    (handleIncomingMessage ⟨some (mkDmMessage 8)⟩ 1 okClient (some dmSettings)
      (some (mkUserChat 555)) 1800001 ⟨[("1_555", 0)], [], []⟩).2.1
    = .dmReplied := by decide

example :
    (handleIncomingMessage ⟨some (mkMentionMessage 7)⟩ 1 okClient (some groupSettings)
      (some groupChat) 0 emptyState).2
    = (.groupReplied, [⟨"42", "Thanks for the ping", none⟩]) := by decide

example :
    (handleIncomingMessage ⟨some (mkReplySelfMessage 7)⟩ 1 okClient (some groupSettings)
      (some groupChat) 0 emptyState).2.1 = .groupReplied := by decide

example :
    (handleIncomingMessage ⟨some (mkDmMessage 7)⟩ 1 okClient (some groupSettings)
      (some groupChat) 0 emptyState).2.1 = .groupNoTrigger := by decide

example :
    (handleIncomingMessage ⟨some ({mkDmMessage 7 with text := some "hello @couper !"})⟩ 1
      okClient (some groupSettings) (some groupChat) 0 emptyState).2.1
    = .groupReplied := by decide

example :
    (handleIncomingMessage ⟨some ({mkDmMessage 7 with text := some "hello @couperx"})⟩ 1
      okClient (some groupSettings) (some groupChat) 0 emptyState).2.1
    = .groupNoTrigger := by decide

example :
    (handleIncomingMessage ⟨some ({mkDmMessage 7 with core := selfCore})⟩ 1 okClient
      (some dmSettings) (some (mkUserChat 555)) 0 emptyState).2.1 = .skippedSelf := by decide

example :
    (handleIncomingMessage ⟨some ({mkDmMessage 7 with sender := some ⟨true⟩})⟩ 1 okClient
      (some dmSettings) (some (mkUserChat 555)) 0 emptyState).2.1 = .skippedBot := by decide

example :
    (handleIncomingMessage ⟨some ({mkDmMessage 7 with text := some "   "})⟩ 1 okClient
      (some dmSettings) (some (mkUserChat 555)) 0 emptyState).2.1 = .skippedEmpty := by decide

example :
    (groupDuplicateRace emptyState 1 "42" "7" 0 true true "Thanks for the ping").2.length
    = 2 := by decide

example :
    (handleIncomingMessage ⟨some (mkDmMessage 9)⟩ 1 failClient (some dmSettings)
      (some (mkUserChat 555)) 1800001 ⟨[("1_555", 0)], [], []⟩)
    = (⟨[], [], [("1_555_9", 1830001)]⟩, .dmSendFailed, []) := by decide

/-! ## Supporting lemmas -/

lemma lookupKey_eraseKey_self (m : List (String × Int)) (k : String) :
    lookupKey (eraseKey m k) k = none := by
  have h : List.find? (fun p => decide (p.1 = k)) (List.filter (fun p => decide (p.1 ≠ k)) m)
      = none := by
    rw [List.find?_eq_none]
    intro p hp
    have h2 := (List.mem_filter.mp hp).2
    simp only [decide_eq_true_eq] at h2 ⊢
    exact h2
  simp only [lookupKey, eraseKey, h, Option.map_none']

lemma processingMessages_markChatAsReplied (st : HandlerState) (a : Nat) (c : String) (t : Int) :
    (markChatAsReplied st a c t).processingMessages = st.processingMessages := rfl

lemma processingMessages_hasReplied (st : HandlerState) (a : Nat) (c : String) (t : Int) :
    (hasRepliedToChatRecently st a c t).2.processingMessages = st.processingMessages := by
  rcases hl : lookupKey st.repliedChats (getChatKey a c) with _ | lastReply
  · simp [hasRepliedToChatRecently, hl]
  · simp only [hasRepliedToChatRecently, hl]
    split <;> rfl

lemma not_mem_clear (X : HandlerState) (a : Nat) (c m : String) (k : String)
    (h : k = getMessageKey a c m ∨ k ∉ X.processingMessages) :
    k ∉ (clearMessageProcessing X a c m).processingMessages := by
  intro hmem
  have hf := List.mem_filter.mp hmem
  rcases h with h | h
  · have h2 := hf.2
    simp [h] at h2
  · exact h hf.1

lemma not_mem_mark {st : HandlerState} {a : Nat} {c m : String} {now : Int} {k : String}
    (h : k ∉ st.processingMessages) (hne : k ≠ getMessageKey a c m) :
    k ∉ (markMessageProcessing st a c m now).processingMessages := by
  intro hmem
  cases hc : st.processingMessages.contains (getMessageKey a c m) <;>
    simp only [markMessageProcessing, hc] at hmem
  · simp only [Bool.false_eq_true, if_false, List.mem_cons] at hmem
    rcases hmem with h1 | h1
    · exact hne h1
    · exact h h1
  · simp only [if_true] at hmem
    exact h hmem

lemma not_mem_clear_mark {X : HandlerState} {a : Nat} {c m : String} {now : Int} {k : String}
    (h : k ∉ X.processingMessages) :
    k ∉ (clearMessageProcessing (markMessageProcessing X a c m now) a c m).processingMessages := by
  by_cases hk : k = getMessageKey a c m
  · exact not_mem_clear _ _ _ _ _ (Or.inl hk)
  · exact not_mem_clear _ _ _ _ _ (Or.inr (not_mem_mark h hk))

lemma not_mem_dmPath {st : HandlerState} {a : Nat} {c m text : String} {sendOk : Bool}
    {now : Int} {k : String} (h : k ∉ st.processingMessages) :
    k ∉ (dmPath st a c m text sendOk now).1.processingMessages := by
  have hbase : k ∉ (hasRepliedToChatRecently st a c now).2.processingMessages := by
    rw [processingMessages_hasReplied]; exact h
  unfold dmPath
  split
  · exact hbase
  split
  · by_cases hk : k = getMessageKey a c m
    · exact not_mem_clear _ _ _ _ _ (Or.inl hk)
    · refine not_mem_clear _ _ _ _ _ (Or.inr ?_)
      show k ∉ (markMessageProcessing (hasRepliedToChatRecently st a c now).2
        a c m now).processingMessages
      exact not_mem_mark hbase hk
  · exact not_mem_clear_mark hbase

lemma not_mem_groupPath {st : HandlerState} {a : Nat} {c m text : String}
    {sendOk trigger : Bool} {now : Int} {k : String} (h : k ∉ st.processingMessages) :
    k ∉ (groupPath st a c m text sendOk trigger now).1.processingMessages := by
  unfold groupPath
  split
  · exact h
  split
  · exact not_mem_clear_mark h
  · exact not_mem_clear_mark h

lemma hasReplied_none (st : HandlerState) (a : Nat) (c : String) (t : Int)
    (h : lookupKey st.repliedChats (getChatKey a c) = none) :
    hasRepliedToChatRecently st a c t = (false, st) := by
  simp [hasRepliedToChatRecently, h]

lemma hasReplied_some_expired (st : HandlerState) (a : Nat) (c : String) (t last : Int)
    (hl : lookupKey st.repliedChats (getChatKey a c) = some last)
    (hexp : last < t - 30 * 60 * 1000) :
    hasRepliedToChatRecently st a c t
      = (false, { st with repliedChats := eraseKey st.repliedChats (getChatKey a c) }) := by
  unfold hasRepliedToChatRecently
  simp only [hl]
  rw [if_pos hexp]

lemma hasReplied_some_active (st : HandlerState) (a : Nat) (c : String) (t last : Int)
    (hl : lookupKey st.repliedChats (getChatKey a c) = some last)
    (hexp : ¬ (last < t - 30 * 60 * 1000)) :
    hasRepliedToChatRecently st a c t = (true, st) := by
  unfold hasRepliedToChatRecently
  simp only [hl]
  rw [if_neg hexp]

lemma hasReplied_false_absent (st : HandlerState) (a : Nat) (c : String) (t : Int)
    (h : (hasRepliedToChatRecently st a c t).1 = false) :
    lookupKey (hasRepliedToChatRecently st a c t).2.repliedChats (getChatKey a c) = none := by
  rcases hl : lookupKey st.repliedChats (getChatKey a c) with _ | last
  · rw [hasReplied_none st a c t hl]
    exact hl
  · by_cases hexp : last < t - 30 * 60 * 1000
    · rw [hasReplied_some_expired st a c t last hl hexp]
      exact lookupKey_eraseKey_self _ _
    · rw [hasReplied_some_active st a c t last hl hexp] at h
      simp at h

lemma hasReplied_expired (a : Nat) (c : String) (t0 t1 : Int) (pm : List String)
    (tms : List (String × Int)) (h : t0 < t1 - 1800000) :
    hasRepliedToChatRecently ⟨[(getChatKey a c, t0)], pm, tms⟩ a c t1
      = (false, ⟨[], pm, tms⟩) := by
  simp [hasRepliedToChatRecently, lookupKey, h, eraseKey]

lemma repliedChats_clear_mark (X : HandlerState) (a : Nat) (c m : String) (t : Int) :
    (clearMessageProcessing (markMessageProcessing X a c m t) a c m).repliedChats
      = X.repliedChats := rfl

lemma dmPath_empty_ok (a : Nat) (c m text : String) (t : Int) :
    dmPath emptyState a c m text true t
      = (⟨[(getChatKey a c, t)], [], [(getMessageKey a c m, t + 30000)]⟩, .dmReplied,
          [⟨c, text, none⟩]) := by
  simp [dmPath, hasRepliedToChatRecently, lookupKey, emptyState, markMessageProcessing,
    markChatAsReplied, clearMessageProcessing, setKey, eraseKey]

lemma dmPath_active (a : Nat) (c m text : String) (t0 t1 : Int) (tms : List (String × Int))
    (h : ¬ (t0 < t1 - 1800000)) :
    dmPath ⟨[(getChatKey a c, t0)], [], tms⟩ a c m text true t1
      = (⟨[(getChatKey a c, t0)], [], tms⟩, .dmCooldownActive, []) := by
  simp [dmPath, hasRepliedToChatRecently, lookupKey, h]

lemma dmPath_expired (a : Nat) (c m text : String) (t0 t1 : Int) (tms : List (String × Int))
    (h : t0 < t1 - 1800000) :
    dmPath ⟨[(getChatKey a c, t0)], [], tms⟩ a c m text true t1
      = (⟨[(getChatKey a c, t1)], [], (getMessageKey a c m, t1 + 30000) :: tms⟩, .dmReplied,
          [⟨c, text, none⟩]) := by
  simp [dmPath, hasRepliedToChatRecently, lookupKey, h, eraseKey, markMessageProcessing,
    markChatAsReplied, clearMessageProcessing, setKey]

lemma dmPath_sendFail (st : HandlerState) (a : Nat) (c m text : String) (t : Int)
    (hcool : (hasRepliedToChatRecently st a c t).1 = false) :
    dmPath st a c m text false t
      = (clearMessageProcessing (markMessageProcessing (hasRepliedToChatRecently st a c t).2
            a c m t) a c m, .dmSendFailed, []) := by
  simp [dmPath, hcool]

lemma handle_dm_reduce (msg : Message) (accountId : Nat) (cl : Client)
    (ds : Settings) (chat : Chat) (cid : JSNum) (mid : Nat) (now : Int) (st : HandlerState)
    (hout : msg.out = false)
    (hself : isMessageFromSelf msg.core cl.meId = false)
    (hbot : isSenderBot msg cl = false)
    (htext : textIsEmpty msg.text = false)
    (hmid : msg.id = some mid) (hmid0 : mid ≠ 0)
    (hchatid : chat.id = some cid)
    (hproc : isProcessingMessage st accountId (toString cid.toNum) (toString mid) = false)
    (hchat : chat.className = "User")
    (hdm : ds.autoReplyDmEnabled = true)
    (hdmtext : truthyStr ds.autoReplyDmMessage = true) :
    handleIncomingMessage ⟨some msg⟩ accountId cl (some ds) (some chat) now st
      = dmPath st accountId (toString cid.toNum) (toString mid)
          (ds.autoReplyDmMessage.getD "") cl.sendOk now := by
  have hchatstr : chatIdString chat = some (toString cid.toNum) := by
    simp [chatIdString, hchatid]
  have hdmcond : (decide (chat.className = "User") && ds.autoReplyDmEnabled
      && truthyStr ds.autoReplyDmMessage) = true := by
    simp [hchat, hdm, hdmtext]
  simp only [handleIncomingMessage, hout, hself, hbot, htext, hchatstr, hmid, hmid0, hproc,
    hdmcond, Bool.false_eq_true, if_false, if_true, ite_true, ite_false]

/-! ## Claim theorems -/

/-- C1 counterexample: the claim's boundary is wrong.  A DM reply at t0 = 0
records the cooldown; a second DM in the same chat at exactly
t1 = t0 + 30 min is still suppressed (`lastReplyTime < now - window` is
strict), while the claim requires a reply at every t1 ≥ t0 + 30 min. -/
theorem c1_boundary_cex :
    (handleIncomingMessage ⟨some (mkDmMessage 7)⟩ 1 okClient (some dmSettings)
        (some (mkUserChat 555)) 0 emptyState).2.1 = .dmReplied
    ∧ (1800000 : Int) = 0 + 30 * 60 * 1000
    ∧ (handleIncomingMessage ⟨some (mkDmMessage 8)⟩ 1 okClient (some dmSettings)
        (some (mkUserChat 555)) 1800000
        (handleIncomingMessage ⟨some (mkDmMessage 7)⟩ 1 okClient (some dmSettings)
          (some (mkUserChat 555)) 0 emptyState).1).2
      = (.dmCooldownActive, []) := by decide

/-- C1 (amended): a DM reply at t0 records a cooldown entry for
(accountId, chatId); a further DM in the same chat at t1 ≤ t0 + 30 min gets
no reply, while one at t1 > t0 + 30 min is replied to again, the expired
entry being treated as absent and deleted on that lookup. -/
theorem c1_dm_cooldown_window
    (msg1 msg2 : Message) (a : Nat) (cl : Client) (ds : Settings) (chat : Chat)
    (cid : JSNum) (mid1 mid2 : Nat) (t0 t1 : Int)
    (h1out : msg1.out = false)
    (h1self : isMessageFromSelf msg1.core cl.meId = false)
    (h1bot : isSenderBot msg1 cl = false)
    (h1text : textIsEmpty msg1.text = false)
    (h1mid : msg1.id = some mid1) (h1mid0 : mid1 ≠ 0)
    (h2out : msg2.out = false)
    (h2self : isMessageFromSelf msg2.core cl.meId = false)
    (h2bot : isSenderBot msg2 cl = false)
    (h2text : textIsEmpty msg2.text = false)
    (h2mid : msg2.id = some mid2) (h2mid0 : mid2 ≠ 0)
    (hchatid : chat.id = some cid) (hchat : chat.className = "User")
    (hdm : ds.autoReplyDmEnabled = true)
    (hdmtext : truthyStr ds.autoReplyDmMessage = true)
    (hsend : cl.sendOk = true) :
    (handleIncomingMessage ⟨some msg1⟩ a cl (some ds) (some chat) t0 emptyState).2.1
        = .dmReplied
    ∧ lookupKey (handleIncomingMessage ⟨some msg1⟩ a cl (some ds) (some chat) t0
          emptyState).1.repliedChats (getChatKey a (toString cid.toNum)) = some t0
    ∧ (t1 ≤ t0 + 30 * 60 * 1000 →
        (handleIncomingMessage ⟨some msg2⟩ a cl (some ds) (some chat) t1
            (handleIncomingMessage ⟨some msg1⟩ a cl (some ds) (some chat) t0
              emptyState).1).2
          = (.dmCooldownActive, []))
    ∧ (t0 + 30 * 60 * 1000 < t1 →
        (hasRepliedToChatRecently (handleIncomingMessage ⟨some msg1⟩ a cl (some ds)
              (some chat) t0 emptyState).1 a (toString cid.toNum) t1).1 = false
        ∧ lookupKey (hasRepliedToChatRecently (handleIncomingMessage ⟨some msg1⟩ a cl
              (some ds) (some chat) t0 emptyState).1 a (toString cid.toNum)
              t1).2.repliedChats (getChatKey a (toString cid.toNum)) = none
        ∧ (handleIncomingMessage ⟨some msg2⟩ a cl (some ds) (some chat) t1
              (handleIncomingMessage ⟨some msg1⟩ a cl (some ds) (some chat) t0
                emptyState).1).2
            = (.dmReplied, [⟨toString cid.toNum, ds.autoReplyDmMessage.getD "", none⟩])) := by
  have hrun1 : handleIncomingMessage ⟨some msg1⟩ a cl (some ds) (some chat) t0 emptyState
      = (⟨[(getChatKey a (toString cid.toNum), t0)], [],
          [(getMessageKey a (toString cid.toNum) (toString mid1), t0 + 30000)]⟩, .dmReplied,
          [⟨toString cid.toNum, ds.autoReplyDmMessage.getD "", none⟩]) := by
    rw [handle_dm_reduce msg1 a cl ds chat cid mid1 t0 emptyState h1out h1self h1bot h1text
      h1mid h1mid0 hchatid (by simp [isProcessingMessage, emptyState]) hchat hdm hdmtext,
      hsend, dmPath_empty_ok]
  refine ⟨by rw [hrun1], by rw [hrun1]; simp [lookupKey], fun ht => ?_, fun ht => ?_⟩
  · rw [hrun1, handle_dm_reduce msg2 a cl ds chat cid mid2 t1 _ h2out h2self h2bot h2text
      h2mid h2mid0 hchatid (by simp [isProcessingMessage]) hchat hdm hdmtext, hsend,
      dmPath_active _ _ _ _ t0 t1 _ (by omega)]
  · refine ⟨?_, ?_, ?_⟩
    · rw [hrun1, hasReplied_expired a (toString cid.toNum) t0 t1 _ _ (by omega)]
    · rw [hrun1, hasReplied_expired a (toString cid.toNum) t0 t1 _ _ (by omega)]
      simp [lookupKey]
    · rw [hrun1, handle_dm_reduce msg2 a cl ds chat cid mid2 t1 _ h2out h2self h2bot h2text
        h2mid h2mid0 hchatid (by simp [isProcessingMessage]) hchat hdm hdmtext, hsend,
        dmPath_expired _ _ _ _ t0 t1 _ (by omega)]

/-- C1 witness: the amended window at concrete times — reply at t0 = 0,
suppression at t1 = 1 ms, reply again with the entry purged at
t1 = 30 min + 1 ms. -/
theorem c1_dm_cooldown_window_witness :
    (handleIncomingMessage ⟨some (mkDmMessage 7)⟩ 1 okClient (some dmSettings)
        (some (mkUserChat 555)) 0 emptyState).2.1 = .dmReplied
    ∧ lookupKey (handleIncomingMessage ⟨some (mkDmMessage 7)⟩ 1 okClient (some dmSettings)
        (some (mkUserChat 555)) 0 emptyState).1.repliedChats
        (getChatKey 1 (toString (JSNum.num 555).toNum)) = some 0
    ∧ (handleIncomingMessage ⟨some (mkDmMessage 8)⟩ 1 okClient (some dmSettings)
        (some (mkUserChat 555)) 1
        (handleIncomingMessage ⟨some (mkDmMessage 7)⟩ 1 okClient (some dmSettings)
          (some (mkUserChat 555)) 0 emptyState).1).2 = (.dmCooldownActive, [])
    ∧ (handleIncomingMessage ⟨some (mkDmMessage 8)⟩ 1 okClient (some dmSettings)
        (some (mkUserChat 555)) 1800001
        (handleIncomingMessage ⟨some (mkDmMessage 7)⟩ 1 okClient (some dmSettings)
          (some (mkUserChat 555)) 0 emptyState).1).2
      = (.dmReplied, [⟨"555", "Away right now", none⟩]) := by
  have h1 := c1_dm_cooldown_window (mkDmMessage 7) (mkDmMessage 8) 1 okClient dmSettings
    (mkUserChat 555) (.num 555) 7 8 0 1 (by decide) (by decide) (by decide) (by decide)
    (by decide) (by decide) (by decide) (by decide) (by decide) (by decide) (by decide)
    (by decide) (by decide) (by decide) (by decide) (by decide) (by decide)
  have h2 := c1_dm_cooldown_window (mkDmMessage 7) (mkDmMessage 8) 1 okClient dmSettings
    (mkUserChat 555) (.num 555) 7 8 0 1800001 (by decide) (by decide) (by decide) (by decide)
    (by decide) (by decide) (by decide) (by decide) (by decide) (by decide) (by decide)
    (by decide) (by decide) (by decide) (by decide) (by decide) (by decide)
  exact ⟨h1.1, h1.2.1, h1.2.2.1 (by decide), (h2.2.2.2 (by decide)).2.2⟩

/-- C10 counterexample: on a failed DM send the cooldown map is not always
unchanged — with an expired entry present, the pre-send lookup lazily purges
it, so the map shrinks even though `markChatAsReplied` was never called. -/
theorem c10_failed_send_map_change_cex :
    (handleIncomingMessage ⟨some (mkDmMessage 9)⟩ 1 failClient (some dmSettings)
        (some (mkUserChat 555)) 1800001 ⟨[("1_555", 0)], [], []⟩).2 = (.dmSendFailed, [])
    ∧ (handleIncomingMessage ⟨some (mkDmMessage 9)⟩ 1 failClient (some dmSettings)
        (some (mkUserChat 555)) 1800001 ⟨[("1_555", 0)], [], []⟩).1.repliedChats = []
    ∧ ([("1_555", 0)] : List (String × Int)) ≠ [] := by decide

/-- C10 (amended): when the DM send throws, no reply is dispatched and
`markChatAsReplied` is not called: the cooldown map is exactly the post-lookup
map (unchanged except for the lazy purge of an expired entry during the
pre-send cooldown check), the chat's key is absent from it, and the chat
remains eligible for an auto-reply at any later time. -/
theorem c10_failed_send_keeps_eligible
    (msg : Message) (a : Nat) (cl : Client) (ds : Settings) (chat : Chat)
    (cid : JSNum) (mid : Nat) (now : Int) (st : HandlerState)
    (hout : msg.out = false)
    (hself : isMessageFromSelf msg.core cl.meId = false)
    (hbot : isSenderBot msg cl = false)
    (htext : textIsEmpty msg.text = false)
    (hmid : msg.id = some mid) (hmid0 : mid ≠ 0)
    (hchatid : chat.id = some cid)
    (hproc : isProcessingMessage st a (toString cid.toNum) (toString mid) = false)
    (hchat : chat.className = "User")
    (hdm : ds.autoReplyDmEnabled = true)
    (hdmtext : truthyStr ds.autoReplyDmMessage = true)
    (hcool : (hasRepliedToChatRecently st a (toString cid.toNum) now).1 = false)
    (hsendf : cl.sendOk = false) :
    (handleIncomingMessage ⟨some msg⟩ a cl (some ds) (some chat) now st).2
        = (.dmSendFailed, [])
    ∧ (handleIncomingMessage ⟨some msg⟩ a cl (some ds) (some chat) now st).1.repliedChats
        = (hasRepliedToChatRecently st a (toString cid.toNum) now).2.repliedChats
    ∧ lookupKey (handleIncomingMessage ⟨some msg⟩ a cl (some ds) (some chat) now
          st).1.repliedChats (getChatKey a (toString cid.toNum)) = none
    ∧ (∀ t', (hasRepliedToChatRecently
          (handleIncomingMessage ⟨some msg⟩ a cl (some ds) (some chat) now st).1
          a (toString cid.toNum) t').1 = false) := by
  rw [handle_dm_reduce msg a cl ds chat cid mid now st hout hself hbot htext hmid hmid0
    hchatid hproc hchat hdm hdmtext, hsendf,
    dmPath_sendFail st a (toString cid.toNum) (toString mid) _ now hcool]
  have habsent := hasReplied_false_absent st a (toString cid.toNum) now hcool
  refine ⟨rfl, repliedChats_clear_mark _ _ _ _ _, ?_, ?_⟩
  · rw [show (clearMessageProcessing (markMessageProcessing
        (hasRepliedToChatRecently st a (toString cid.toNum) now).2 a (toString cid.toNum)
        (toString mid) now) a (toString cid.toNum) (toString mid), HandlerOutcome.dmSendFailed,
        ([] : List SendCall)).1.repliedChats
      = (hasRepliedToChatRecently st a (toString cid.toNum) now).2.repliedChats from rfl]
    exact habsent
  · intro t'
    have hlk : lookupKey (clearMessageProcessing (markMessageProcessing
          (hasRepliedToChatRecently st a (toString cid.toNum) now).2 a (toString cid.toNum)
          (toString mid) now) a (toString cid.toNum) (toString mid)).repliedChats
        (getChatKey a (toString cid.toNum)) = none := habsent
    rw [hasReplied_none _ _ _ _ hlk]

/-- C10 witness: a concrete failed DM send with a fresh chat — no cooldown
recorded, chat still eligible immediately afterwards. -/
theorem c10_failed_send_keeps_eligible_witness :
    (handleIncomingMessage ⟨some (mkDmMessage 9)⟩ 1 failClient (some dmSettings)
        (some (mkUserChat 555)) 5 emptyState).2 = (.dmSendFailed, [])
    ∧ (handleIncomingMessage ⟨some (mkDmMessage 9)⟩ 1 failClient (some dmSettings)
        (some (mkUserChat 555)) 5 emptyState).1.repliedChats
      = (hasRepliedToChatRecently emptyState 1 (toString (JSNum.num 555).toNum)
          5).2.repliedChats
    ∧ lookupKey (handleIncomingMessage ⟨some (mkDmMessage 9)⟩ 1 failClient (some dmSettings)
        (some (mkUserChat 555)) 5 emptyState).1.repliedChats
        (getChatKey 1 (toString (JSNum.num 555).toNum)) = none
    ∧ (∀ t', (hasRepliedToChatRecently
        (handleIncomingMessage ⟨some (mkDmMessage 9)⟩ 1 failClient (some dmSettings)
          (some (mkUserChat 555)) 5 emptyState).1 1 (toString (JSNum.num 555).toNum)
        t').1 = false) :=
  c10_failed_send_keeps_eligible (mkDmMessage 9) 1 failClient dmSettings (mkUserChat 555)
    (.num 555) 9 5 emptyState (by decide) (by decide) (by decide) (by decide) (by decide)
    (by decide) (by decide) (by decide) (by decide) (by decide) (by decide) (by decide)
    (by decide)

/-- C4: no reply is ever dispatched for an outgoing message, a message
authored by the session's own identity, a message from a bot sender, or an
empty/whitespace-only text, and the three exclusions are applied in the
order self, bot, empty — each firing before any surface-specific handling
and regardless of the later conditions. -/
theorem c4_exclusion_checks (msg : Message) (accountId : Nat) (cl : Client)
    (settings : Option Settings) (chat : Option Chat) (now : Int) (st : HandlerState) :
    (msg.out = true →
      (handleIncomingMessage ⟨some msg⟩ accountId cl settings chat now st).2
        = (.skippedOutgoing, [])) ∧
    (msg.out = false → isMessageFromSelf msg.core cl.meId = true →
      (handleIncomingMessage ⟨some msg⟩ accountId cl settings chat now st).2
        = (.skippedSelf, [])) ∧
    (msg.out = false → isMessageFromSelf msg.core cl.meId = false →
      isSenderBot msg cl = true →
      (handleIncomingMessage ⟨some msg⟩ accountId cl settings chat now st).2
        = (.skippedBot, [])) ∧
    (msg.out = false → isMessageFromSelf msg.core cl.meId = false →
      isSenderBot msg cl = false → textIsEmpty msg.text = true →
      (handleIncomingMessage ⟨some msg⟩ accountId cl settings chat now st).2
        = (.skippedEmpty, [])) := by
  refine ⟨fun h1 => ?_, fun h1 h2 => ?_, fun h1 h2 h3 => ?_, fun h1 h2 h3 h4 => ?_⟩
  · simp only [handleIncomingMessage]
    rw [h1]
    all_goals rfl
  · simp only [handleIncomingMessage]
    rw [h1, h2]
    all_goals rfl
  · simp only [handleIncomingMessage]
    rw [h1, h2, h3]
    all_goals rfl
  · simp only [handleIncomingMessage]
    rw [h1, h2, h3, h4]
    all_goals rfl

/-- C4 witness: the three exclusions observed on concrete messages (a
self-authored message with a `BigInt` sender id, a bot sender, and a
whitespace-only text). -/
theorem c4_exclusion_checks_witness :
    (handleIncomingMessage ⟨some { mkDmMessage 7 with core := selfCore }⟩ 1 okClient
        (some dmSettings) (some (mkUserChat 555)) 0 emptyState).2 = (.skippedSelf, []) ∧
    (handleIncomingMessage ⟨some { mkDmMessage 7 with sender := some ⟨true⟩ }⟩ 1 okClient
        (some dmSettings) (some (mkUserChat 555)) 0 emptyState).2 = (.skippedBot, []) ∧
    (handleIncomingMessage ⟨some { mkDmMessage 7 with text := some "   " }⟩ 1 okClient
        (some dmSettings) (some (mkUserChat 555)) 0 emptyState).2 = (.skippedEmpty, []) :=
  ⟨(c4_exclusion_checks { mkDmMessage 7 with core := selfCore } 1 okClient
      (some dmSettings) (some (mkUserChat 555)) 0 emptyState).2.1 (by decide) (by decide),
   (c4_exclusion_checks { mkDmMessage 7 with sender := some ⟨true⟩ } 1 okClient
      (some dmSettings) (some (mkUserChat 555)) 0 emptyState).2.2.1 (by decide) (by decide)
      (by decide),
   (c4_exclusion_checks { mkDmMessage 7 with text := some "   " } 1 okClient
      (some dmSettings) (some (mkUserChat 555)) 0 emptyState).2.2.2 (by decide) (by decide)
      (by decide) (by decide)⟩

/-- C2: the claim is right about the required discipline but the code breaks
it — awaited calls (`getAccountSettings`, `isAccountMentioned`,
`isReplyToAccount`) sit between the `isProcessingMessage` check and
`markMessageProcessing`.  On a concrete mentioning group event: the phase
split at that suspension point composes back to `handleIncomingMessage`
(first conjunct), the trigger holds, a single sequential run dispatches one
reply, yet the interleaving in which a duplicate task runs its check while
the first still awaits the settings fetch dispatches TWO replies. -/
theorem c2_duplicate_reply_race :
    (handleIncomingMessage ⟨some (mkMentionMessage 7)⟩ 1 okClient (some groupSettings)
        (some groupChat) 0 emptyState)
      = (if groupCheckPhase emptyState 1 "42" "7" then
          groupPath emptyState 1 "42" "7" "Thanks for the ping" true
            (isAccountMentioned (mkMentionMessage 7) okClient.meId okClient.meUsername
              || isReplyToAccount (mkMentionMessage 7) okClient) 0
        else (emptyState, .alreadyProcessing, []))
    ∧ (isAccountMentioned (mkMentionMessage 7) okClient.meId okClient.meUsername
        || isReplyToAccount (mkMentionMessage 7) okClient) = true
    ∧ (handleIncomingMessage ⟨some (mkMentionMessage 7)⟩ 1 okClient (some groupSettings)
        (some groupChat) 0 emptyState).2.2.length = 1
    ∧ (groupDuplicateRace emptyState 1 "42" "7" 0 true true
        "Thanks for the ping").2.length = 2 := by decide

/-- C7 counterexample: in the event-driven handler a group-trigger reply is
dispatched as a plain send — the `sendMessage` options carry no reply-to
reference (`replyToRef = none`), refuting "sent in-thread as a reply to the
triggering message". -/
theorem c7_group_reply_not_in_thread_cex :
    (handleIncomingMessage ⟨some (mkMentionMessage 7)⟩ 1 okClient (some groupSettings)
        (some groupChat) 0 emptyState).2
      = (.groupReplied, [⟨"42", "Thanks for the ping", none⟩]) := by decide

lemma dmPath_sends_plain (st : HandlerState) (a : Nat) (c m text : String) (sendOk : Bool)
    (now : Int) (s : SendCall) (hmem : s ∈ (dmPath st a c m text sendOk now).2.2) :
    s.replyToRef = none := by
  unfold dmPath at hmem
  split at hmem
  · simp at hmem
  split at hmem
  · simp only [List.mem_singleton] at hmem
    rw [hmem]
  · simp at hmem

lemma groupPath_sends_plain (st : HandlerState) (a : Nat) (c m text : String)
    (sendOk trigger : Bool) (now : Int) (s : SendCall)
    (hmem : s ∈ (groupPath st a c m text sendOk trigger now).2.2) :
    s.replyToRef = none := by
  unfold groupPath at hmem
  split at hmem
  · simp at hmem
  split at hmem
  · simp only [List.mem_singleton] at hmem
    rw [hmem]
  · simp at hmem

/-- C7 (amended): the reply-to reference depends on which service dispatches.
The polling service's `sendReplyWithDelay` attaches `options.replyTo` exactly
when an original message is passed — its group call site passes the
triggering message (in-thread) and its DM call site passes null (plain) —
while the event-driven `handleIncomingMessage` sends every reply, group and
DM alike, as a plain message with no reply-to reference. -/
theorem c7_reply_form :
    (∀ (chatId dmText : String),
      pollDmDispatch true chatId dmText = [⟨chatId, dmText, none⟩])
    ∧ (∀ (chatId gText : String) (mid : Nat),
        pollGroupDispatch true chatId gText mid = [⟨chatId, gText, some mid⟩])
    ∧ (∀ (ev : Event) (a : Nat) (cl : Client) (s : Option Settings) (chat : Option Chat)
        (now : Int) (st : HandlerState) (c : SendCall),
        c ∈ (handleIncomingMessage ev a cl s chat now st).2.2 → c.replyToRef = none) := by
  refine ⟨fun chatId dmText => rfl, fun chatId gText mid => rfl, ?_⟩
  intro ev a cl s chat now st c hmem
  unfold handleIncomingMessage at hmem
  split at hmem
  · simp at hmem
  split at hmem
  · simp at hmem
  split at hmem
  · simp at hmem
  split at hmem
  · simp at hmem
  split at hmem
  · simp at hmem
  split at hmem
  · simp at hmem
  split at hmem
  · simp at hmem
  split at hmem
  · simp at hmem
  split at hmem
  · simp at hmem
  split at hmem
  · simp at hmem
  split at hmem
  · simp at hmem
  split at hmem
  · exact dmPath_sends_plain _ _ _ _ _ _ _ _ hmem
  split at hmem
  · exact groupPath_sends_plain _ _ _ _ _ _ _ _ _ hmem
  · simp at hmem

/-- C7 witness: the polling call sites produce in-thread group and plain DM
sends, and a concrete send dispatched by the event-driven handler carries no
reply-to reference. -/
theorem c7_reply_form_witness :
    pollDmDispatch true "555" "Away right now" = [⟨"555", "Away right now", none⟩]
    ∧ pollGroupDispatch true "42" "Thanks for the ping" 7
        = [⟨"42", "Thanks for the ping", some 7⟩]
    ∧ (⟨"42", "Thanks for the ping", none⟩ : SendCall).replyToRef = none :=
  ⟨c7_reply_form.1 "555" "Away right now",
   c7_reply_form.2.1 "42" "Thanks for the ping" 7,
   c7_reply_form.2.2 ⟨some (mkMentionMessage 7)⟩ 1 okClient (some groupSettings)
     (some groupChat) 0 emptyState _ (by decide)⟩

/-- C8 counterexample: `start()` performs no immediate health check — its
trace contains no `performHealthCheck` call, and the first health check
fires only a full `setInterval` period (120000 ms) after start, refuting
"invoked once immediately when the service starts". -/
theorem c8_no_immediate_health_check_cex :
    (startOps [1, 2] 0).contains Op.performHealthCheck = false
    ∧ healthCheckFireTime 0 = 120000
    ∧ startHealthCheckLoop.runsImmediately = false := by decide

/-- C8 (amended): the health-check loop is a fixed 120-second `setInterval`
— the n-th run fires at 120000·(n+1) ms with constant 120000 ms spacing — but
it is NOT additionally invoked when the service starts: `start()`'s trace
never contains a direct `performHealthCheck` call, so the first check happens
one full interval after start. -/
theorem c8_health_check_schedule :
    startHealthCheckLoop = ⟨.fixedInterval 120000, false⟩
    ∧ (∀ n : Nat, healthCheckFireTime n = 120000 * ((n : Int) + 1))
    ∧ (∀ n : Nat, healthCheckFireTime (n + 1) - healthCheckFireTime n = 120000)
    ∧ healthCheckFireTime 0 = 120000
    ∧ (∀ (rows : List Nat) (r0 : ℚ),
        (startOps rows r0).contains Op.performHealthCheck = false) := by
  refine ⟨rfl, fun n => rfl, fun n => ?_, rfl, fun rows r0 => ?_⟩
  · show HEALTH_CHECK_INTERVAL * ((n : Int) + 1 + 1) - HEALTH_CHECK_INTERVAL * ((n : Int) + 1)
      = 120000
    unfold HEALTH_CHECK_INTERVAL
    ring
  · induction rows with
    | nil => rfl
    | cons x l ih =>
      rw [show startOps (x :: l) r0 = Op.connectAccount x :: startOps l r0 from rfl,
        List.contains_cons, ih, Bool.or_false]
      rfl

/-- On `getRandomOfflineInterval`'s arithmetic:
`MAX - MIN + 1 = 4001` as a rational coefficient. -/
lemma getRandomOfflineInterval_eq (r : ℚ) :
    getRandomOfflineInterval r = ⌊r * 4001⌋ + 8000 := by
  unfold getRandomOfflineInterval OFFLINE_INTERVAL_MIN OFFLINE_INTERVAL_MAX
  norm_num

/-- C9: the presence cycler.  (1) every delay drawn with `Math.random() ∈
[0,1)` lies in the closed interval [8000, 12000]; (2) the draw is uniform:
the delay equals `k` exactly when the raw draw falls in the length-1/4001
window `[(k-8000)/4001, (k-7999)/4001)`, the same measure for every `k` in
range; (3) during a walk every registered account is visited inside its own
try/catch — a connected one gets the appear-offline call, a disconnected one
a reconnect, regardless of errors thrown for other accounts — and the walk
covers all accounts; (4) the loop is a self-rescheduling `setTimeout` chain
drawing a fresh delay after every walk, not a fixed-period timer. -/
theorem c9_presence_cycler :
    (∀ r : ℚ, 0 ≤ r → r < 1 →
      OFFLINE_INTERVAL_MIN ≤ getRandomOfflineInterval r
        ∧ getRandomOfflineInterval r ≤ OFFLINE_INTERVAL_MAX)
    ∧ (∀ k : Int, 8000 ≤ k → k ≤ 12000 → ∀ r : ℚ, 0 ≤ r → r < 1 →
        (getRandomOfflineInterval r = k ↔
          ((k : ℚ) - 8000) / 4001 ≤ r ∧ r < ((k : ℚ) - 7999) / 4001))
    ∧ (∀ (accounts : List LoopAccount) (acc : LoopAccount), acc ∈ accounts →
        acc.throwsErr = false →
        ((acc.connected = true → WalkAction.offlineCall acc.idStr ∈ offlineWalk accounts)
          ∧ (acc.connected = false → WalkAction.reconnect acc.idStr ∈ offlineWalk accounts)))
    ∧ (∀ accounts : List LoopAccount, (offlineWalk accounts).length = accounts.length)
    ∧ (∀ (rs : ℕ → ℚ) (n : ℕ), offlineLoopDelays rs n = getRandomOfflineInterval (rs n))
    ∧ startOfflineStatusLoop.kind = .chainedTimeout := by
  refine ⟨?_, ?_, ?_, fun accounts => by simp [offlineWalk], fun rs n => rfl, rfl⟩
  · intro r h0 h1
    rw [getRandomOfflineInterval_eq]
    unfold OFFLINE_INTERVAL_MIN OFFLINE_INTERVAL_MAX
    have hnn : (0 : Int) ≤ ⌊r * 4001⌋ := Int.floor_nonneg.mpr (by positivity)
    have hub : ⌊r * 4001⌋ < 4001 := by
      rw [Int.floor_lt]
      push_cast
      nlinarith
    omega
  · intro k hk1 hk2 r h0 h1
    rw [getRandomOfflineInterval_eq]
    constructor
    · intro h
      have hfl : ⌊r * 4001⌋ = k - 8000 := by omega
      rw [Int.floor_eq_iff] at hfl
      obtain ⟨hl, hr⟩ := hfl
      push_cast at hl hr
      constructor
      · rw [div_le_iff₀ (by norm_num : (0:ℚ) < 4001)]
        linarith
      · rw [lt_div_iff₀ (by norm_num : (0:ℚ) < 4001)]
        linarith
    · intro hin
      obtain ⟨hl, hr⟩ := hin
      rw [div_le_iff₀ (by norm_num : (0:ℚ) < 4001)] at hl
      rw [lt_div_iff₀ (by norm_num : (0:ℚ) < 4001)] at hr
      have hfl : ⌊r * 4001⌋ = k - 8000 := by
        rw [Int.floor_eq_iff]
        constructor
        · push_cast
          linarith
        · push_cast
          linarith
      omega
  · intro accounts acc hmem hthrow
    constructor
    · intro hconn
      have hw : walkAccount acc = .offlineCall acc.idStr := by
        simp [walkAccount, hthrow, hconn]
      rw [← hw]
      exact List.mem_map_of_mem _ hmem
    · intro hconn
      have hw : walkAccount acc = .reconnect acc.idStr := by
        simp [walkAccount, hthrow, hconn]
      rw [← hw]
      exact List.mem_map_of_mem _ hmem

/-- C9 witness: a concrete draw hits the bounds, the uniform-window
equivalence instantiates at k = 10000, and in a walk over one connected and
one throwing account the connected one still gets its appear-offline call. -/
theorem c9_presence_cycler_witness :
    (OFFLINE_INTERVAL_MIN ≤ getRandomOfflineInterval 0
      ∧ getRandomOfflineInterval 0 ≤ OFFLINE_INTERVAL_MAX)
    ∧ (getRandomOfflineInterval (1/2) = 10000 ↔
        ((10000 : ℚ) - 8000) / 4001 ≤ 1/2 ∧ (1/2 : ℚ) < ((10000 : ℚ) - 7999) / 4001)
    ∧ WalkAction.offlineCall "7" ∈ offlineWalk [⟨"7", true, false⟩, ⟨"9", false, true⟩] :=
  ⟨c9_presence_cycler.1 0 (by norm_num) (by norm_num),
   c9_presence_cycler.2.1 10000 (by norm_num) (by norm_num) (1/2) (by norm_num) (by norm_num),
   (c9_presence_cycler.2.2.1 [⟨"7", true, false⟩, ⟨"9", false, true⟩] ⟨"7", true, false⟩
     (by simp) rfl).1 rfl⟩

/-- C3: with group auto-reply enabled and a configured text, an inbound
group/channel message that passes the universal exclusions is answered iff
the account is mentioned (structured entities or literal `@username` text)
or the message is a reply to a message the account authored; absent both,
no reply is sent. -/
theorem c3_group_trigger_iff (msg : Message) (accountId : Nat) (cl : Client)
    (gs : Settings) (chat : Chat) (cid : JSNum) (mid : Nat) (now : Int) (st : HandlerState)
    (hout : msg.out = false)
    (hself : isMessageFromSelf msg.core cl.meId = false)
    (hbot : isSenderBot msg cl = false)
    (htext : textIsEmpty msg.text = false)
    (hmid : msg.id = some mid) (hmid0 : mid ≠ 0)
    (hchatid : chat.id = some cid)
    (hproc : isProcessingMessage st accountId (toString cid.toNum) (toString mid) = false)
    (hnotdm : chat.className ≠ "User")
    (hgroup : chat.className = "Chat" ∨ chat.className = "Channel"
      ∨ chat.megagroup = true ∨ chat.gigagroup = true)
    (hen : gs.autoReplyGroupsEnabled = true)
    (hset : truthyStr gs.autoReplyGroupsMessage = true)
    (hsend : cl.sendOk = true) :
    (handleIncomingMessage ⟨some msg⟩ accountId cl (some gs) (some chat) now st).2.2 ≠ []
      ↔ (isAccountMentioned msg cl.meId cl.meUsername = true
          ∨ isReplyToAccount msg cl = true) := by
  have hchatstr : chatIdString chat = some (toString cid.toNum) := by
    simp [chatIdString, hchatid]
  have hdmcond : (decide (chat.className = "User") && gs.autoReplyDmEnabled
      && truthyStr gs.autoReplyDmMessage) = false := by
    simp [hnotdm]
  have hgroupcond : (decide (chat.className = "Chat" ∨ chat.className = "Channel"
      ∨ chat.megagroup = true ∨ chat.gigagroup = true) && gs.autoReplyGroupsEnabled
      && truthyStr gs.autoReplyGroupsMessage) = true := by
    simp [hgroup, hen, hset]
  simp only [handleIncomingMessage, hout, hself, hbot, htext, hchatstr, hmid, hmid0, hproc,
    hdmcond, hgroupcond, Bool.false_eq_true, if_false, if_true, ite_true, ite_false]
  cases hm : isAccountMentioned msg cl.meId cl.meUsername <;>
    cases hr : isReplyToAccount msg cl <;>
      simp [groupPath, hsend, hm, hr]

/-- C3 witness: on a concrete mentioning group message the reply is
dispatched, and the equivalence instantiates with the mention trigger. -/
theorem c3_group_trigger_iff_witness :
    (handleIncomingMessage ⟨some (mkMentionMessage 7)⟩ 1 okClient (some groupSettings)
        (some groupChat) 0 emptyState).2.2 ≠ []
      ↔ (isAccountMentioned (mkMentionMessage 7) okClient.meId okClient.meUsername = true
          ∨ isReplyToAccount (mkMentionMessage 7) okClient = true) :=
  c3_group_trigger_iff (mkMentionMessage 7) 1 okClient groupSettings groupChat
    (.num 42) 7 0 emptyState (by decide) (by decide) (by decide) (by decide) (by decide)
    (by decide) (by decide) (by decide) (by decide) (by decide) (by decide) (by decide)
    (by decide)

/-- C5: the group path neither reads nor writes the cooldown store — for any
cooldown state whatsoever, a classifier-confirmed group trigger gets its
reply, and the `repliedChats` map is returned unchanged (`markReplied` is
never called on the group path). -/
theorem c5_group_cooldown_frame (msg : Message) (accountId : Nat) (cl : Client)
    (gs : Settings) (chat : Chat) (cid : JSNum) (mid : Nat) (now : Int) (st : HandlerState)
    (hout : msg.out = false)
    (hself : isMessageFromSelf msg.core cl.meId = false)
    (hbot : isSenderBot msg cl = false)
    (htext : textIsEmpty msg.text = false)
    (hmid : msg.id = some mid) (hmid0 : mid ≠ 0)
    (hchatid : chat.id = some cid)
    (hproc : isProcessingMessage st accountId (toString cid.toNum) (toString mid) = false)
    (hnotdm : chat.className ≠ "User")
    (hgroup : chat.className = "Chat" ∨ chat.className = "Channel"
      ∨ chat.megagroup = true ∨ chat.gigagroup = true)
    (hen : gs.autoReplyGroupsEnabled = true)
    (hset : truthyStr gs.autoReplyGroupsMessage = true)
    (hsend : cl.sendOk = true)
    (htrig : (isAccountMentioned msg cl.meId cl.meUsername
        || isReplyToAccount msg cl) = true) :
    (handleIncomingMessage ⟨some msg⟩ accountId cl (some gs) (some chat) now st).2.2
      = [⟨toString cid.toNum, gs.autoReplyGroupsMessage.getD "", none⟩]
    ∧ (handleIncomingMessage ⟨some msg⟩ accountId cl (some gs) (some chat) now
        st).1.repliedChats = st.repliedChats
    ∧ (handleIncomingMessage ⟨some msg⟩ accountId cl (some gs) (some chat) now st).2.1
      = .groupReplied := by
  have hchatstr : chatIdString chat = some (toString cid.toNum) := by
    simp [chatIdString, hchatid]
  have hdmcond : (decide (chat.className = "User") && gs.autoReplyDmEnabled
      && truthyStr gs.autoReplyDmMessage) = false := by
    simp [hnotdm]
  have hgroupcond : (decide (chat.className = "Chat" ∨ chat.className = "Channel"
      ∨ chat.megagroup = true ∨ chat.gigagroup = true) && gs.autoReplyGroupsEnabled
      && truthyStr gs.autoReplyGroupsMessage) = true := by
    simp [hgroup, hen, hset]
  simp only [handleIncomingMessage, hout, hself, hbot, htext, hchatstr, hmid, hmid0, hproc,
    hdmcond, hgroupcond, Bool.false_eq_true, if_false, if_true, ite_true, ite_false]
  simp [groupPath, htrig, hsend, clearMessageProcessing, markMessageProcessing]

/-- C5 witness: a concrete group mention is answered even though the chat's
cooldown entry is fresh, and the cooldown map is untouched. -/
theorem c5_group_cooldown_frame_witness :
    (handleIncomingMessage ⟨some (mkMentionMessage 7)⟩ 1 okClient (some groupSettings)
        (some groupChat) 0 ⟨[("1_42", 0)], [], []⟩).2.2
      = [⟨"42", "Thanks for the ping", none⟩]
    ∧ (handleIncomingMessage ⟨some (mkMentionMessage 7)⟩ 1 okClient (some groupSettings)
        (some groupChat) 0 ⟨[("1_42", 0)], [], []⟩).1.repliedChats = [("1_42", 0)]
    ∧ (handleIncomingMessage ⟨some (mkMentionMessage 7)⟩ 1 okClient (some groupSettings)
        (some groupChat) 0 ⟨[("1_42", 0)], [], []⟩).2.1 = .groupReplied :=
  c5_group_cooldown_frame (mkMentionMessage 7) 1 okClient groupSettings groupChat
    (.num 42) 7 0 ⟨[("1_42", 0)], [], []⟩ (by decide) (by decide) (by decide) (by decide)
    (by decide) (by decide) (by decide) (by decide) (by decide) (by decide) (by decide)
    (by decide) (by decide) (by decide)

/-- C6: the in-flight marker is released on every exit path of
`handleIncomingMessage` — a key not in flight beforehand is never left in
flight on return, success and send-failure alike — and, independently,
`markMessageProcessing` schedules a 30000 ms auto-cleanup, so once the due
timers fire at any time ≥ 30 seconds after acquisition the marker is gone
even if the explicit release was skipped. -/
theorem c6_guard_release_and_expiry :
    (∀ (ev : Event) (accountId : Nat) (cl : Client) (settings : Option Settings)
        (chat : Option Chat) (now : Int) (st : HandlerState) (k : String),
      k ∉ st.processingMessages →
      k ∉ (handleIncomingMessage ev accountId cl settings chat now st).1.processingMessages) ∧
    (∀ (st : HandlerState) (accountId : Nat) (chatId messageId : String) (now t : Int),
      now + 30000 ≤ t →
      (getMessageKey accountId chatId messageId) ∉
        (fireDueTimers (markMessageProcessing st accountId chatId messageId now) t).processingMessages) := by
  constructor
  · intro ev accountId cl settings chat now st k hk
    unfold handleIncomingMessage
    split
    · exact hk
    split
    · exact hk
    split
    · exact hk
    split
    · exact hk
    split
    · exact hk
    split
    · exact hk
    split
    · exact hk
    split
    · exact hk
    split
    · exact hk
    split
    · exact hk
    split
    · exact hk
    split
    · exact not_mem_dmPath hk
    split
    · exact not_mem_groupPath hk
    · exact hk
  · intro st accountId chatId messageId now t ht
    intro hmem
    simp only [fireDueTimers, markMessageProcessing, List.mem_filter] at hmem
    obtain ⟨_, hpred⟩ := hmem
    simp only [Bool.not_eq_true', List.any_eq_false] at hpred
    have hfalse := hpred (getMessageKey accountId chatId messageId, now + 30000) (by simp)
    exact hfalse (by simp [ht])

/-- C6 witness: a concrete dispatch leaves no marker behind, and a marker
acquired at time 0 with cleanup skipped is gone once the 30000 ms timer has
fired. -/
theorem c6_guard_release_and_expiry_witness :
    "1_555_7" ∉ (handleIncomingMessage ⟨some (mkDmMessage 7)⟩ 1 okClient (some dmSettings)
        (some (mkUserChat 555)) 0 emptyState).1.processingMessages ∧
    getMessageKey 1 "555" "7" ∉ (fireDueTimers (markMessageProcessing emptyState 1 "555" "7" 0)
        30000).processingMessages :=
  ⟨c6_guard_release_and_expiry.1 ⟨some (mkDmMessage 7)⟩ 1 okClient (some dmSettings)
      (some (mkUserChat 555)) 0 emptyState "1_555_7" (by decide),
   c6_guard_release_and_expiry.2 emptyState 1 "555" "7" 0 30000 (by decide)⟩

end Coup
